import Mathlib

/-!
Shallow embedding of `src/assets/html5-qrcode.jsx` (the `Html5QrcodePlugin`
React component) and proofs about its lifecycle contract.

The component destructures seven named props, builds a scan configuration
object from four of them, and in a `useEffect` with an empty dependency
list validates the success callback, constructs the external scanner,
starts it, and registers a cleanup that clears the scanner and logs (but
never rethrows) clear failures.  It renders
`<div id={qrcodeRegionId} {...rest} />`.

JavaScript values are modelled by `JSValue`; JS objects (props, the scan
configuration, the rendered element attributes) by association lists with
later-entry-wins lookup, matching object-literal / JSX-spread semantics.
The external scanner is opaque: constructing it, starting it, clearing it
and logging are recorded as events in a trace.
-/

/-- A JavaScript value, as far as this component inspects values:
`undefined`, `null`, booleans, numbers, strings, and opaque function
values identified by a tag. -/
inductive JSValue where
  | undefined : JSValue
  | null : JSValue
  | bool : Bool → JSValue
  | num : Int → JSValue
  | str : String → JSValue
  | fn : Nat → JSValue
  deriving DecidableEq, Repr

/-- JavaScript truthiness: `undefined`, `null`, `false`, `0` and `""`
are falsy; everything else (in particular every function) is truthy. -/
def truthy : JSValue → Bool
  | JSValue.undefined => false
  | JSValue.null => false
  | JSValue.bool b => b
  | JSValue.num n => decide (n ≠ 0)
  | JSValue.str s => decide (s ≠ "")
  | JSValue.fn _ => true

/-- A JavaScript object: an association list of string keys to values.
A later entry for the same key shadows an earlier one, matching both
object-literal semantics and JSX attribute-spread semantics. -/
def Obj : Type := List (String × JSValue)

instance : DecidableEq Obj := by
  unfold Obj
  infer_instance

/-- Lookup returning the last (winning) entry for a key, if any. -/
def Obj.getLast : Obj → String → Option JSValue
  | [], _ => none
  | (k2, v) :: t, k =>
    match Obj.getLast t k with
    | some w => some w
    | none => if k2 = k then some v else none

/-- Whether the object has the key at all (`key in obj`). -/
def Obj.hasKey (o : Obj) (k : String) : Bool :=
  (Obj.getLast o k).isSome

/-- Property access `obj[k]`: `undefined` when the key is absent. -/
def Obj.get (o : Obj) (k : String) : JSValue :=
  (Obj.getLast o k).getD JSValue.undefined

/-- The fixed region identifier, `qrcodeRegionId` in the source. -/
def qrcodeRegionId : String := "html5qr-code-full-region"

/-- The seven prop names the destructuring pattern consumes; every other
prop lands in `rest`. -/
def namedPropKeys : List String :=
  ["fps", "qrbox", "aspectRatio", "disableFlip", "verbose",
   "qrCodeSuccessCallback", "qrCodeErrorCallback"]

/-- The `...rest` of the destructuring: all props whose key is not one of
the seven named keys, in order. -/
def restProps (props : Obj) : Obj :=
  props.filter (fun p => decide (p.1 ∉ namedPropKeys))

/-- The `config` object built in the effect body:
`{ fps, qrbox, aspectRatio, disableFlip }`.  All four keys are always
present; a prop the caller did not pass contributes the value
`undefined`. -/
def configOf (props : Obj) : Obj :=
  [("fps", Obj.get props "fps"),
   ("qrbox", Obj.get props "qrbox"),
   ("aspectRatio", Obj.get props "aspectRatio"),
   ("disableFlip", Obj.get props "disableFlip")]

/-- Attributes of the rendered `<div id={qrcodeRegionId} {...rest} />`:
the fixed id attribute first, then the spread of `rest`, which (by
later-entry-wins lookup) overrides the id if `rest` itself carries an
`id` key. -/
def renderedElement (props : Obj) : Obj :=
  ("id", JSValue.str qrcodeRegionId) :: restProps props

/-- Observable actions of the effect body and its cleanup. -/
inductive Event where
  /-- `new Html5QrcodeScanner(regionId, config, verboseFlag)`. -/
  | construct : String → Obj → Bool → Event
  /-- `scanner.render(successCallback, errorCallback)`. -/
  | renderScanner : JSValue → JSValue → Event
  /-- `scanner.clear()` invoked. -/
  | clearCalled : Event
  /-- `console.error("Failed to clear html5QrcodeScanner. ", error)`. -/
  | logClearFailure : JSValue → Event
  deriving DecidableEq

/-- The error string thrown when the success callback is missing. -/
def missingCallbackError : String := "qrCodeSuccessCallback is required callback."

/-- The outcome of the asynchronous `scanner.clear()` promise: `ok` when
it resolves, `error e` when it rejects with reason `e`. -/
def ClearOutcome : Type := Except JSValue Unit

/-- The `.catch` combinator on the clear promise: a rejection is handed
to the handler and the chain resolves with the handler's output; the
chain itself never rejects. -/
def promiseCatch (p : ClearOutcome) (handler : JSValue → List Event) :
    Except JSValue (List Event) :=
  match p with
  | Except.ok _ => Except.ok []
  | Except.error e => Except.ok (handler e)

/-- The chain `html5QrcodeScanner.clear().catch(error => console.error(...))`
from the cleanup function. -/
def clearChain (outcome : ClearOutcome) : Except JSValue (List Event) :=
  promiseCatch outcome (fun e => [Event.logClearFailure e])

/-- Events produced by a resolved chain (the error branch is unreachable:
`clearChain` never rejects, see `clearChain_never_rejects`). -/
def okEvents : Except JSValue (List Event) → List Event
  | Except.ok evs => evs
  | Except.error _ => []

/-- The cleanup function returned by the effect body: call `clear()` and
attach the logging catch handler. -/
def cleanupFn (outcome : ClearOutcome) : List Event :=
  Event.clearCalled :: okEvents (clearChain outcome)

/-- The body of the `useEffect` callback: build `config`, throw if the
success callback is falsy, otherwise construct the scanner with the
region id, the config and `verbose === true`, start it with the two
callbacks, and return the cleanup function.  The result is the list of
events performed plus either the thrown string or the cleanup. -/
def runEffect (props : Obj) :
    List Event × Except String (ClearOutcome → List Event) :=
  if truthy (Obj.get props "qrCodeSuccessCallback") = false then
    ([], Except.error missingCallbackError)
  else
    ([Event.construct qrcodeRegionId (configOf props)
        (decide (Obj.get props "verbose" = JSValue.bool true)),
      Event.renderScanner (Obj.get props "qrCodeSuccessCallback")
        (Obj.get props "qrCodeErrorCallback")],
     Except.ok cleanupFn)

/-- The dependency array passed to `useEffect`: literally `[]`,
independent of the props. -/
def effectDeps (_props : Obj) : List JSValue := []

/-- React's dependency comparison: the effect re-runs when the arrays
have different lengths or some position differs. -/
def depsChanged (old new : List JSValue) : Bool :=
  decide (old.length ≠ new.length) ||
    (old.zip new).any (fun p => decide (p.1 ≠ p.2))

/-- A mounted component instance: the events performed so far, the
registered cleanup (none if the effect threw), and the dependency array
of the last effect run. -/
structure MountedInstance where
  events : List Event
  cleanup : Option (ClearOutcome → List Event)
  deps : List JSValue

/-- Mounting: render, then run the effect once.  Returns the instance
and the error the effect threw, if any (a thrown effect registers no
cleanup). -/
def mount (props : Obj) : MountedInstance × Option String :=
  match runEffect props with
  | (evs, Except.ok c) => (⟨evs, some c, effectDeps props⟩, none)
  | (evs, Except.error e) => (⟨evs, none, effectDeps props⟩, some e)

/-- Re-running the effect on an update whose dependencies changed: run
the previous cleanup (its asynchronous clear having the given outcome),
then the effect body again. -/
def rerunEffect (inst : MountedInstance) (newProps : Obj)
    (outcome : ClearOutcome) : MountedInstance :=
  let cleanupEvents :=
    match inst.cleanup with
    | some c => c outcome
    | none => []
  match runEffect newProps with
  | (evs, Except.ok c) =>
    ⟨inst.events ++ cleanupEvents ++ evs, some c, effectDeps newProps⟩
  | (evs, Except.error _) =>
    ⟨inst.events ++ cleanupEvents ++ evs, none, effectDeps newProps⟩

/-- A re-render with new props: the effect re-runs only when its
dependency array changed since the last run. -/
def update (inst : MountedInstance) (newProps : Obj)
    (outcome : ClearOutcome) : MountedInstance :=
  if depsChanged inst.deps (effectDeps newProps) then
    rerunEffect inst newProps outcome
  else
    inst

/-- A sequence of re-renders. -/
def applyUpdates (inst : MountedInstance)
    (updates : List (Obj × ClearOutcome)) : MountedInstance :=
  updates.foldl (fun i u => update i u.1 u.2) inst

/-- Unmounting: run the registered cleanup, if any, with the given clear
outcome; the full event trace of the instance results. -/
def unmount (inst : MountedInstance) (outcome : ClearOutcome) : List Event :=
  inst.events ++
    match inst.cleanup with
    | some c => c outcome
    | none => []

/-- Recognizer for scanner-construction events. -/
def isConstruct : Event → Bool
  | Event.construct _ _ _ => true
  | _ => false

/-- Recognizer for clear (release) events. -/
def isClear : Event → Bool
  | Event.clearCalled => true
  | _ => false

/-- Recognizer for log events. -/
def isLog : Event → Bool
  | Event.logClearFailure _ => true
  | _ => false

/-- Number of scanner constructions in a trace. -/
def countConstruct (tr : List Event) : Nat :=
  (tr.filter isConstruct).length

/-- Number of clear attempts in a trace. -/
def countClear (tr : List Event) : Nat :=
  (tr.filter isClear).length

/-- Whether the first construction strictly precedes the first clear. -/
def constructBeforeClear : List Event → Bool
  | [] => false
  | e :: t =>
    if isConstruct e then t.any isClear
    else if isClear e then false
    else constructBeforeClear t

/-- The verbose flag of the first scanner construction in the instance
trace, if any. -/
def eventVerbose : Event → Option Bool
  | Event.construct _ _ v => some v
  | _ => none

/-- The verbose flag the scanner constructor received on mount. -/
def constructedVerbose (inst : MountedInstance) : Option Bool :=
  (inst.events.filterMap eventVerbose).head?

/-! ## Helper lemmas -/

theorem Obj.getLast_of_hasKey_false {o : Obj} {k : String}
    (h : Obj.hasKey o k = false) : Obj.getLast o k = none := by
  cases hl : Obj.getLast o k with
  | none => rfl
  | some w => simp [Obj.hasKey, hl] at h

theorem Obj.get_of_hasKey_false {o : Obj} {k : String}
    (h : Obj.hasKey o k = false) : Obj.get o k = JSValue.undefined := by
  simp [Obj.get, Obj.getLast_of_hasKey_false h]

theorem runEffect_of_falsy {props : Obj}
    (h : truthy (Obj.get props "qrCodeSuccessCallback") = false) :
    runEffect props = ([], Except.error missingCallbackError) := by
  simp [runEffect, h]

theorem runEffect_of_truthy {props : Obj}
    (h : truthy (Obj.get props "qrCodeSuccessCallback") = true) :
    runEffect props =
      ([Event.construct qrcodeRegionId (configOf props)
          (decide (Obj.get props "verbose" = JSValue.bool true)),
        Event.renderScanner (Obj.get props "qrCodeSuccessCallback")
          (Obj.get props "qrCodeErrorCallback")],
       Except.ok cleanupFn) := by
  simp [runEffect, h]

theorem mount_of_truthy {props : Obj}
    (h : truthy (Obj.get props "qrCodeSuccessCallback") = true) :
    mount props =
      (⟨[Event.construct qrcodeRegionId (configOf props)
           (decide (Obj.get props "verbose" = JSValue.bool true)),
         Event.renderScanner (Obj.get props "qrCodeSuccessCallback")
           (Obj.get props "qrCodeErrorCallback")],
        some cleanupFn, []⟩, none) := by
  unfold mount
  rw [runEffect_of_truthy h]
  rfl

theorem mount_of_falsy {props : Obj}
    (h : truthy (Obj.get props "qrCodeSuccessCallback") = false) :
    mount props = (⟨[], none, []⟩, some missingCallbackError) := by
  unfold mount
  rw [runEffect_of_falsy h]
  rfl

theorem update_of_deps_nil {inst : MountedInstance} (h : inst.deps = [])
    (p : Obj) (o : ClearOutcome) : update inst p o = inst := by
  simp [update, depsChanged, effectDeps, h]

theorem applyUpdates_of_deps_nil {inst : MountedInstance} (h : inst.deps = [])
    (updates : List (Obj × ClearOutcome)) : applyUpdates inst updates = inst := by
  induction updates with
  | nil => rfl
  | cons u us ih =>
    show List.foldl _ (update inst u.1 u.2) us = inst
    rw [update_of_deps_nil h]
    exact ih

theorem restProps_getLast {props : Obj} {k : String} (h : k ∉ namedPropKeys) :
    Obj.getLast (restProps props) k = Obj.getLast props k := by
  induction props with
  | nil => rfl
  | cons p t ih =>
    obtain ⟨k2, v⟩ := p
    by_cases hp : k2 ∈ namedPropKeys
    · have hk : ¬ (k2 = k) := fun e => h (e ▸ hp)
      have hrest : restProps ((k2, v) :: t) = restProps t := by
        simp [restProps, List.filter_cons, hp]
      rw [hrest, ih]
      cases hg : Obj.getLast t k with
      | some w => simp [Obj.getLast, hg]
      | none => simp [Obj.getLast, hg, hk]
    · have hrest : restProps ((k2, v) :: t) = (k2, v) :: restProps t := by
        simp [restProps, List.filter_cons, hp]
      rw [hrest]
      cases hg : Obj.getLast t k with
      | some w => simp [Obj.getLast, hg, ih]
      | none => simp [Obj.getLast, hg, ih]

theorem config_hasKey_of_not_named {props : Obj} {k : String}
    (h : k ∉ namedPropKeys) : Obj.hasKey (configOf props) k = false := by
  have h1 : ¬ ("fps" = k) := fun e => h (by rw [← e]; simp [namedPropKeys])
  have h2 : ¬ ("qrbox" = k) := fun e => h (by rw [← e]; simp [namedPropKeys])
  have h3 : ¬ ("aspectRatio" = k) := fun e => h (by rw [← e]; simp [namedPropKeys])
  have h4 : ¬ ("disableFlip" = k) := fun e => h (by rw [← e]; simp [namedPropKeys])
  simp [Obj.hasKey, configOf, Obj.getLast, h1, h2, h3, h4]

theorem configOf_keys (props : Obj) :
    (configOf props).map Prod.fst = ["fps", "qrbox", "aspectRatio", "disableFlip"] := rfl

theorem clearChain_never_rejects (outcome : ClearOutcome) :
    ∃ evs, clearChain outcome = Except.ok evs := by
  cases outcome with
  | ok u => exact ⟨[], rfl⟩
  | error e => exact ⟨[Event.logClearFailure e], rfl⟩

theorem applyUpdates_mount {props : Obj}
    (h : truthy (Obj.get props "qrCodeSuccessCallback") = true)
    (updates : List (Obj × ClearOutcome)) :
    applyUpdates (mount props).1 updates = (mount props).1 := by
  rw [mount_of_truthy h]
  exact applyUpdates_of_deps_nil rfl updates

theorem unmount_mount {props : Obj}
    (h : truthy (Obj.get props "qrCodeSuccessCallback") = true)
    (outcome : ClearOutcome) :
    unmount (mount props).1 outcome =
      [Event.construct qrcodeRegionId (configOf props)
         (decide (Obj.get props "verbose" = JSValue.bool true)),
       Event.renderScanner (Obj.get props "qrCodeSuccessCallback")
         (Obj.get props "qrCodeErrorCallback"),
       Event.clearCalled] ++ okEvents (clearChain outcome) := by
  rw [mount_of_truthy h]
  rfl

/-! ## Claims -/

/-- Claim C1: for every mount with a truthy success callback, the effect
does not throw, re-renders with arbitrary new props never change the
instance (the empty dependency array means the activation sequence runs
exactly once per mount), and the full mount-to-unmount trace contains
exactly one scanner construction and exactly one clear attempt, the
construction strictly before the clear. -/
theorem mount_creates_and_releases_once (props : Obj)
    (updates : List (Obj × ClearOutcome)) (outcome : ClearOutcome)
    (h : truthy (Obj.get props "qrCodeSuccessCallback") = true) :
    (mount props).2 = none ∧
    applyUpdates (mount props).1 updates = (mount props).1 ∧
    countConstruct (unmount (applyUpdates (mount props).1 updates) outcome) = 1 ∧
    countClear (unmount (applyUpdates (mount props).1 updates) outcome) = 1 ∧
    constructBeforeClear (unmount (applyUpdates (mount props).1 updates) outcome) = true := by
  have hu := applyUpdates_mount h updates
  have hm := unmount_mount h outcome
  refine ⟨by rw [mount_of_truthy h], hu, ?_, ?_, ?_⟩ <;> rw [hu, hm] <;>
    cases outcome with
    | ok u =>
      simp [countConstruct, countClear, constructBeforeClear, clearChain,
        promiseCatch, okEvents, isConstruct, isClear]
    | error e =>
      simp [countConstruct, countClear, constructBeforeClear, clearChain,
        promiseCatch, okEvents, isConstruct, isClear]

/-- Witness for C1 at concrete props with a function success callback,
one ignored prop update, and a resolving clear. -/
theorem mount_creates_and_releases_once_witness :
    truthy (Obj.get [("qrCodeSuccessCallback", JSValue.fn 0)] "qrCodeSuccessCallback") = true ∧
    ((mount [("qrCodeSuccessCallback", JSValue.fn 0)]).2 = none ∧
     applyUpdates (mount [("qrCodeSuccessCallback", JSValue.fn 0)]).1
       [([("fps", JSValue.num 30)], Except.ok ())] =
       (mount [("qrCodeSuccessCallback", JSValue.fn 0)]).1 ∧
     countConstruct (unmount (applyUpdates (mount [("qrCodeSuccessCallback", JSValue.fn 0)]).1
       [([("fps", JSValue.num 30)], Except.ok ())]) (Except.ok ())) = 1 ∧
     countClear (unmount (applyUpdates (mount [("qrCodeSuccessCallback", JSValue.fn 0)]).1
       [([("fps", JSValue.num 30)], Except.ok ())]) (Except.ok ())) = 1 ∧
     constructBeforeClear (unmount (applyUpdates (mount [("qrCodeSuccessCallback", JSValue.fn 0)]).1
       [([("fps", JSValue.num 30)], Except.ok ())]) (Except.ok ())) = true) :=
  ⟨by decide,
   mount_creates_and_releases_once [("qrCodeSuccessCallback", JSValue.fn 0)]
     [([("fps", JSValue.num 30)], Except.ok ())] (Except.ok ()) (by decide)⟩

/-- Claim C2: when the `qrCodeSuccessCallback` prop is absent, the effect
throws the configuration error string immediately, no event at all is
performed (in particular the scanner constructor is never invoked, so no
scanner is bound to the DOM region), and the mount records the thrown
error with no cleanup registered. -/
theorem missing_callback_fails_before_creation (props : Obj)
    (h : Obj.hasKey props "qrCodeSuccessCallback" = false) :
    runEffect props = ([], Except.error missingCallbackError) ∧
    (mount props).1.events = [] ∧
    countConstruct (mount props).1.events = 0 ∧
    (mount props).2 = some missingCallbackError := by
  have hf : truthy (Obj.get props "qrCodeSuccessCallback") = false := by
    rw [Obj.get_of_hasKey_false h]
    rfl
  refine ⟨runEffect_of_falsy hf, ?_, ?_, ?_⟩ <;>
    simp [mount_of_falsy hf, countConstruct]

/-- Witness for C2 at concrete props that carry only an `fps` entry. -/
theorem missing_callback_fails_before_creation_witness :
    Obj.hasKey [(("fps" : String), JSValue.num 10)] "qrCodeSuccessCallback" = false ∧
    (runEffect [(("fps" : String), JSValue.num 10)] = ([], Except.error missingCallbackError) ∧
     (mount [(("fps" : String), JSValue.num 10)]).1.events = [] ∧
     countConstruct (mount [(("fps" : String), JSValue.num 10)]).1.events = 0 ∧
     (mount [(("fps" : String), JSValue.num 10)]).2 = some missingCallbackError) :=
  ⟨by decide, missing_callback_fails_before_creation [(("fps" : String), JSValue.num 10)] (by decide)⟩

/-- Claim C3: the concrete scenario props `{fps: 10, qrbox: 250,
qrCodeSuccessCallback: cb}` (with `cb` the function value `fn 0`)
produce a scanner constructed with config
`{fps: 10, qrbox: 250, aspectRatio: undefined, disableFlip: undefined}`
and verbose flag `false`, started with `(cb, undefined)`; unmounting
performs exactly one clear, whether the clear resolves or rejects. -/
theorem scenario_mount_start_unmount :
    (mount [("fps", JSValue.num 10), ("qrbox", JSValue.num 250),
            ("qrCodeSuccessCallback", JSValue.fn 0)]).1.events =
      [Event.construct qrcodeRegionId
         [("fps", JSValue.num 10), ("qrbox", JSValue.num 250),
          ("aspectRatio", JSValue.undefined), ("disableFlip", JSValue.undefined)] false,
       Event.renderScanner (JSValue.fn 0) JSValue.undefined] ∧
    countClear (unmount (mount [("fps", JSValue.num 10), ("qrbox", JSValue.num 250),
            ("qrCodeSuccessCallback", JSValue.fn 0)]).1 (Except.ok ())) = 1 ∧
    countClear (unmount (mount [("fps", JSValue.num 10), ("qrbox", JSValue.num 250),
            ("qrCodeSuccessCallback", JSValue.fn 0)]).1 (Except.error JSValue.null)) = 1 := by
  refine ⟨by decide, by decide, by decide⟩

/-- Claim C9: an explicitly supplied but falsy success callback (such as
`null`, `false`, `0` or `""`) is rejected exactly like an absent one:
the truthiness test throws the same configuration error string before
any event is performed. -/
theorem falsy_callback_rejected_like_absent (props : Obj)
    (_hk : Obj.hasKey props "qrCodeSuccessCallback" = true)
    (hf : truthy (Obj.get props "qrCodeSuccessCallback") = false) :
    runEffect props = ([], Except.error missingCallbackError) ∧
    (mount props).1.events = [] ∧
    (mount props).2 = some missingCallbackError := by
  refine ⟨runEffect_of_falsy hf, ?_, ?_⟩ <;> rw [mount_of_falsy hf]

/-- Witness for C9 at concrete props whose callback entry is `null`. -/
theorem falsy_callback_rejected_like_absent_witness :
    Obj.hasKey [("qrCodeSuccessCallback", JSValue.null)] "qrCodeSuccessCallback" = true ∧
    truthy (Obj.get [("qrCodeSuccessCallback", JSValue.null)] "qrCodeSuccessCallback") = false ∧
    (runEffect [("qrCodeSuccessCallback", JSValue.null)] = ([], Except.error missingCallbackError) ∧
     (mount [("qrCodeSuccessCallback", JSValue.null)]).1.events = [] ∧
     (mount [("qrCodeSuccessCallback", JSValue.null)]).2 = some missingCallbackError) :=
  ⟨by decide, by decide,
   falsy_callback_rejected_like_absent [("qrCodeSuccessCallback", JSValue.null)]
     (by decide) (by decide)⟩

/-- Claim C10: when activation fails on the missing-callback check, no
cleanup is registered, the event trace is empty, and unmounting performs
nothing at all: no clear attempt, no log entry, and (being a total
function into traces) nothing is raised. -/
theorem failed_activation_leaves_no_teardown (props : Obj)
    (h : truthy (Obj.get props "qrCodeSuccessCallback") = false) :
    (mount props).1.cleanup = none ∧
    (mount props).1.events = [] ∧
    (∀ outcome : ClearOutcome, unmount (mount props).1 outcome = []) ∧
    renderedElement props = ("id", JSValue.str qrcodeRegionId) :: restProps props := by
  rw [mount_of_falsy h]
  exact ⟨rfl, rfl, fun _ => rfl, rfl⟩

/-- Witness for C10 at the empty props object. -/
theorem failed_activation_leaves_no_teardown_witness :
    truthy (Obj.get [] "qrCodeSuccessCallback") = false ∧
    ((mount []).1.cleanup = none ∧
     (mount []).1.events = [] ∧
     (∀ outcome : ClearOutcome, unmount (mount []).1 outcome = []) ∧
     renderedElement [] = ("id", JSValue.str qrcodeRegionId) :: restProps []) :=
  ⟨by decide, failed_activation_leaves_no_teardown [] (by decide)⟩

/-- Counterexample for C4: with props `{qrCodeSuccessCallback: cb}` the
caller did not supply `fps`, yet the config passed to the scanner still
contains the key `fps` (with value `undefined`) — the field is included,
not omitted. -/
theorem config_field_included_not_omitted :
    Obj.hasKey [("qrCodeSuccessCallback", JSValue.fn 0)] "fps" = false ∧
    Obj.hasKey (configOf [("qrCodeSuccessCallback", JSValue.fn 0)]) "fps" = true ∧
    Obj.get (configOf [("qrCodeSuccessCallback", JSValue.fn 0)]) "fps" = JSValue.undefined := by
  decide

/-- Claim C4 as amended: the ScanConfiguration always contains exactly
the four scan-related keys, and each carries exactly the caller's value
for that prop — `undefined` when the caller did not supply it — so the
component never substitutes a default of its own, although unsupplied
fields are present (as `undefined`) rather than omitted. -/
theorem config_fields_pass_through_without_defaults (props : Obj) :
    (configOf props).map Prod.fst = ["fps", "qrbox", "aspectRatio", "disableFlip"] ∧
    Obj.get (configOf props) "fps" = Obj.get props "fps" ∧
    Obj.get (configOf props) "qrbox" = Obj.get props "qrbox" ∧
    Obj.get (configOf props) "aspectRatio" = Obj.get props "aspectRatio" ∧
    Obj.get (configOf props) "disableFlip" = Obj.get props "disableFlip" :=
  ⟨rfl, rfl, rfl, rfl, rfl⟩

/-- Counterexample for C5: the JSX spread `{...rest}` comes after
`id={qrcodeRegionId}`, so a passthrough prop named `id` overrides the
fixed region identifier: with props
`{id: "boom", qrCodeSuccessCallback: cb}` the rendered container's `id`
attribute is `"boom"`, not the region identifier. -/
theorem passthrough_id_overrides_region_id :
    Obj.get (renderedElement [("id", JSValue.str "boom"),
      ("qrCodeSuccessCallback", JSValue.fn 0)]) "id" = JSValue.str "boom" ∧
    JSValue.str "boom" ≠ JSValue.str qrcodeRegionId := by
  decide

/-- Claim C5 as amended: for every set of props that does not itself
contain a prop named `id`, the rendered container carries the fixed
region identifier; only a passthrough prop with the key `id` can change
it. -/
theorem region_id_fixed_unless_id_prop (props : Obj)
    (h : Obj.hasKey props "id" = false) :
    Obj.get (renderedElement props) "id" = JSValue.str qrcodeRegionId := by
  have h0 : ("id" : String) ∉ namedPropKeys := by decide
  have hr : Obj.getLast (restProps props) "id" = none := by
    rw [restProps_getLast h0]
    exact Obj.getLast_of_hasKey_false h
  simp [renderedElement, Obj.get, Obj.getLast, hr]

/-- Witness for the amended C5 at props carrying only a class
attribute. -/
theorem region_id_fixed_unless_id_prop_witness :
    Obj.hasKey [("className", JSValue.str "scanner-box")] "id" = false ∧
    Obj.get (renderedElement [("className", JSValue.str "scanner-box")]) "id" =
      JSValue.str qrcodeRegionId :=
  ⟨by decide, region_id_fixed_unless_id_prop [("className", JSValue.str "scanner-box")] (by decide)⟩

/-- Claim C6: on every successful mount, the verbose flag handed to the
scanner constructor is the strict comparison `verbose === true`: it is
`true` exactly when the `verbose` prop is the literal boolean `true`,
and `false` for every other value (a string `"true"`, a number `1`, an
absent prop, ...). -/
theorem verbose_flag_strictly_coerced (props : Obj)
    (h : truthy (Obj.get props "qrCodeSuccessCallback") = true) :
    constructedVerbose (mount props).1 =
      some (decide (Obj.get props "verbose" = JSValue.bool true)) ∧
    ((decide (Obj.get props "verbose" = JSValue.bool true)) = true ↔
      Obj.get props "verbose" = JSValue.bool true) := by
  rw [mount_of_truthy h]
  exact ⟨rfl, decide_eq_true_iff⟩

/-- Witness for C6 at props whose `verbose` is the string `"true"`: the
flag handed to the constructor is `false`. -/
theorem verbose_flag_strictly_coerced_witness :
    truthy (Obj.get [("qrCodeSuccessCallback", JSValue.fn 0),
      ("verbose", JSValue.str "true")] "qrCodeSuccessCallback") = true ∧
    (constructedVerbose (mount [("qrCodeSuccessCallback", JSValue.fn 0),
       ("verbose", JSValue.str "true")]).1 =
       some (decide (Obj.get [("qrCodeSuccessCallback", JSValue.fn 0),
         ("verbose", JSValue.str "true")] "verbose" = JSValue.bool true)) ∧
     ((decide (Obj.get [("qrCodeSuccessCallback", JSValue.fn 0),
         ("verbose", JSValue.str "true")] "verbose" = JSValue.bool true)) = true ↔
       Obj.get [("qrCodeSuccessCallback", JSValue.fn 0),
         ("verbose", JSValue.str "true")] "verbose" = JSValue.bool true)) :=
  ⟨by decide,
   verbose_flag_strictly_coerced
     [("qrCodeSuccessCallback", JSValue.fn 0), ("verbose", JSValue.str "true")] (by decide)⟩

/-- Claim C7: the clear-promise chain built in the cleanup never
rejects — a rejection with any reason resolves to a single log event,
and a resolution to no event — and unmounting a successful mount whose
clear rejects completes with the clear attempt followed by the log
entry. -/
theorem release_failure_logged_never_propagated (props : Obj) (e : JSValue)
    (h : truthy (Obj.get props "qrCodeSuccessCallback") = true) :
    clearChain (Except.error e) = Except.ok [Event.logClearFailure e] ∧
    clearChain (Except.ok ()) = Except.ok [] ∧
    unmount (mount props).1 (Except.error e) =
      (mount props).1.events ++ [Event.clearCalled, Event.logClearFailure e] ∧
    countClear (unmount (mount props).1 (Except.error e)) = 1 := by
  refine ⟨rfl, rfl, ?_, ?_⟩
  · rw [mount_of_truthy h]
    rfl
  · rw [unmount_mount h]
    simp [countClear, clearChain, promiseCatch, okEvents, isClear]

/-- Witness for C7 at concrete props and a concrete rejection reason. -/
theorem release_failure_logged_never_propagated_witness :
    truthy (Obj.get [("qrCodeSuccessCallback", JSValue.fn 7)] "qrCodeSuccessCallback") = true ∧
    (clearChain (Except.error (JSValue.str "camera busy")) =
       Except.ok [Event.logClearFailure (JSValue.str "camera busy")] ∧
     clearChain (Except.ok ()) = Except.ok [] ∧
     unmount (mount [("qrCodeSuccessCallback", JSValue.fn 7)]).1
         (Except.error (JSValue.str "camera busy")) =
       (mount [("qrCodeSuccessCallback", JSValue.fn 7)]).1.events ++
         [Event.clearCalled, Event.logClearFailure (JSValue.str "camera busy")] ∧
     countClear (unmount (mount [("qrCodeSuccessCallback", JSValue.fn 7)]).1
         (Except.error (JSValue.str "camera busy"))) = 1) :=
  ⟨by decide,
   release_failure_logged_never_propagated [("qrCodeSuccessCallback", JSValue.fn 7)]
     (JSValue.str "camera busy") (by decide)⟩

/-- Claim C8: every passthrough prop — any prop whose key is not one of
the seven named keys — appears verbatim as an attribute of the rendered
container and never appears in the ScanConfiguration, which contains
exactly the four scan-related keys. -/
theorem passthrough_props_verbatim_not_in_config (props : Obj) (k : String)
    (h1 : k ∉ namedPropKeys) (h2 : Obj.hasKey props k = true) :
    Obj.get (renderedElement props) k = Obj.get props k ∧
    Obj.hasKey (configOf props) k = false ∧
    (configOf props).map Prod.fst = ["fps", "qrbox", "aspectRatio", "disableFlip"] := by
  refine ⟨?_, config_hasKey_of_not_named h1, rfl⟩
  obtain ⟨w, hw⟩ : ∃ w, Obj.getLast props k = some w := by
    simpa [Obj.hasKey, Option.isSome_iff_exists] using h2
  simp [renderedElement, Obj.get, Obj.getLast, restProps_getLast h1, hw]

/-- Witness for C8 at props with a `className` passthrough. -/
theorem passthrough_props_verbatim_not_in_config_witness :
    (("className" : String) ∉ namedPropKeys) ∧
    Obj.hasKey [("className", JSValue.str "qr-pane"),
      ("qrCodeSuccessCallback", JSValue.fn 0)] "className" = true ∧
    (Obj.get (renderedElement [("className", JSValue.str "qr-pane"),
        ("qrCodeSuccessCallback", JSValue.fn 0)]) "className" =
      Obj.get [("className", JSValue.str "qr-pane"),
        ("qrCodeSuccessCallback", JSValue.fn 0)] "className" ∧
     Obj.hasKey (configOf [("className", JSValue.str "qr-pane"),
        ("qrCodeSuccessCallback", JSValue.fn 0)]) "className" = false ∧
     (configOf [("className", JSValue.str "qr-pane"),
        ("qrCodeSuccessCallback", JSValue.fn 0)]).map Prod.fst =
       ["fps", "qrbox", "aspectRatio", "disableFlip"]) :=
  ⟨by decide, by decide,
   passthrough_props_verbatim_not_in_config
     [("className", JSValue.str "qr-pane"), ("qrCodeSuccessCallback", JSValue.fn 0)]
     "className" (by decide) (by decide)⟩
